import Mathlib

/-!
Verification of the Authorization Policy Engine
(`backend/src/security/policy/policy.service.ts`).

The pure evaluators (`evaluateRBAC`, `evaluateABAC`) and the orchestrator
(`evaluate`), together with the document access operations
(`getPolicyDocument`, `invalidatePolicyCache`, `updatePolicyDocument`),
are embedded as Lean functions.  Stateful collaborators (the Redis caches,
the Prisma tenant store and the audit sink) are modelled by an explicit
environment record threaded through the operations; cache I/O failure is
modelled by a flag under which cache reads yield nothing and cache writes
are no-ops.  JavaScript string truthiness (empty string is falsy) is
modelled explicitly where the source relies on it.
-/

namespace Teknav.Policy

/-- Effect of a permission or rule: `'allow' | 'deny'` in the source. -/
inductive Effect where
  | allow
  | deny
deriving DecidableEq, Repr, BEq

/-- Modelled from the spec: the `policy.types.ts` module imported by
`policy.service.ts` is not among the provided sources.  A policy subject is
a tagged union; `type` is `"role"` or `"user"` and `id` is the role name or
the user identifier (spec section 3, "Subject"). -/
structure PolicySubject where
  type : String
  id : String
deriving DecidableEq, Repr

/-- Modelled from the spec: per-request evaluation context
(spec section 3, "PolicyContext": tenant id, optional workspace id,
optional user id, request id, IP, user agent, device id). -/
structure PolicyContext where
  tenantId : String
  workspaceId : Option String
  userId : Option String
  requestId : String
  ip : String
  ua : String
  deviceId : String
deriving DecidableEq, Repr

/-- Modelled from the spec: evaluation result
(spec section 3, "PolicyResult"). -/
structure PolicyResult where
  allowed : Bool
  denied : Bool
  reason : String
  matchedRuleId : Option String
deriving DecidableEq, Repr

/-- Modelled from the spec: a role permission entry
(spec section 3, "Permission": resource type, allowed actions,
effect, scope).  `scope` is kept as a raw string because the evaluator
compares it against the three recognized literals and treats anything
else defensively. -/
structure Permission where
  resource : String
  actions : List String
  effect : Effect
  scope : String
deriving DecidableEq, Repr

/-- Modelled from the spec: mapping from resource type to permission
for one role (spec section 3, "RolePermissionSet"). -/
structure RolePermissionSet where
  permissions : List Permission
deriving DecidableEq, Repr

/-- Time window condition of an ABAC rule; bounds are optional.
`start`/`stop` model the source's `time.start`/`time.end` timestamps. -/
structure TimeWindow where
  start : Option Int
  stop : Option Int
deriving DecidableEq, Repr

/-- Modelled from the spec: optional conditions of an ABAC rule
(spec section 3, "PolicyRule": tenant id, workspace id, user id set,
time window). -/
structure RuleConditions where
  tenantId : Option String
  workspaceId : Option String
  userIds : Option (List String)
  time : Option TimeWindow
deriving DecidableEq, Repr

/-- Modelled from the spec: one ABAC rule (spec section 3, "PolicyRule"). -/
structure PolicyRule where
  id : String
  effect : Effect
  subject : PolicySubject
  action : String
  resource : String
  conditions : Option RuleConditions
deriving DecidableEq, Repr

/-- Modelled from the spec: the versioned per-tenant policy document
(spec section 3, "PolicyDocument": version, role map, ordered rules,
deny-by-default flag).  The role map is an association list because the
source stores it as a JSON object and looks roles up by name. -/
structure PolicyDocument where
  version : Int
  roles : List (String × RolePermissionSet)
  rules : List PolicyRule
  denyByDefault : Bool
deriving DecidableEq, Repr

/-- Modelled from the spec: the hard-coded default document
(spec section 6: "version 1, empty role map, empty rule list,
denyByDefault: true"). -/
def DEFAULT_POLICY : PolicyDocument :=
  { version := 1, roles := [], rules := [], denyByDefault := true }

/-- Association-list lookup, first binding wins (models JSON object /
Redis key lookup). -/
def alookup {α : Type} : List (String × α) → String → Option α
  | [], _ => none
  | (k, v) :: t, key => if k = key then some v else alookup t key

/-- JavaScript truthiness of an optional string: `undefined`/`null` and
the empty string are falsy. -/
def strTruthy : Option String → Bool
  | none => false
  | some s => s ≠ ""

/-- RBAC evaluator (`evaluateRBAC`, policy.service.ts lines 283-348),
translated clause by clause from the source. -/
def evaluateRBAC (subject : PolicySubject) (action resource : String)
    (context : PolicyContext) (policyDoc : PolicyDocument) : PolicyResult :=
  if subject.type ≠ "role" then
    { allowed := false, denied := false
      reason := "Subject is not a role, skipping RBAC", matchedRuleId := none }
  else
    match alookup policyDoc.roles subject.id with
    | none =>
      { allowed := false, denied := false
        reason := "Role " ++ subject.id ++ " not found in policy"
        matchedRuleId := none }
    | some rolePermissions =>
      match rolePermissions.permissions.find? (fun p => p.resource = resource) with
      | none =>
        { allowed := false, denied := false
          reason := "No permission defined for resource " ++ resource
          matchedRuleId := none }
      | some permission =>
        if ¬ permission.actions.contains action then
          { allowed := false, denied := false
            reason := "Action " ++ action ++ " not in allowed actions for resource " ++ resource
            matchedRuleId := none }
        else if permission.effect = Effect.deny then
          { allowed := false, denied := true
            reason := "Deny effect for role " ++ subject.id ++ " on " ++ resource
            matchedRuleId := none }
        else if permission.scope = "own" then
          if strTruthy context.workspaceId then
            { allowed := true, denied := false
              reason := "Allow effect (scope: own/workspace)", matchedRuleId := none }
          else
            { allowed := false, denied := true
              reason := "Scope mismatch (own scope requires workspace context)"
              matchedRuleId := none }
        else if permission.scope = "workspace" then
          if strTruthy context.workspaceId then
            { allowed := true, denied := false
              reason := "Allow effect (scope: workspace)", matchedRuleId := none }
          else
            { allowed := false, denied := true
              reason := "Scope mismatch (workspace scope requires workspaceId in context)"
              matchedRuleId := none }
        else if permission.scope = "all" then
          { allowed := true, denied := false
            reason := "Allow effect (scope: all)", matchedRuleId := none }
        else
          { allowed := false, denied := false
            reason := "Unknown scope: " ++ permission.scope, matchedRuleId := none }

/-- Matching predicate of one ABAC rule against the request
(the filter body of `evaluateABAC`, policy.service.ts lines 361-406).
`now` stands for `new Date()`. -/
def ruleMatches (rule : PolicyRule) (subject : PolicySubject)
    (action resource : String) (context : PolicyContext) (now : Int) : Bool :=
  if rule.action ≠ action then false
  else if rule.resource ≠ resource then false
  else if rule.subject.type ≠ subject.type then false
  else if rule.subject.id ≠ subject.id then false
  else
    match rule.conditions with
    | none => true
    | some conds =>
      if strTruthy conds.tenantId ∧ conds.tenantId ≠ some context.tenantId then false
      else if strTruthy conds.workspaceId ∧ conds.workspaceId ≠ context.workspaceId then false
      else if (match conds.userIds with
               | some uids =>
                 decide (uids.length > 0) &&
                   ! (match context.userId with
                      | some u => uids.contains u
                      | none => false)
               | none => false) then false
      else
        match conds.time with
        | none => true
        | some tw =>
          if (match tw.start with
              | some s => decide (now < s)
              | none => false) then false
          else if (match tw.stop with
                   | some e => decide (now > e)
                   | none => false) then false
          else true

/-- Stable insertion used to model `Array.prototype.sort` with the
deny-before-allow comparator (policy.service.ts lines 409-413).
ECMAScript mandates a stable sort; an element is inserted after every
element the comparator does not order it before. -/
def insertDenyFirst (r : PolicyRule) : List PolicyRule → List PolicyRule
  | [] => [r]
  | h :: t =>
    if r.effect = Effect.allow ∧ h.effect = Effect.deny then
      h :: insertDenyFirst r t
    else
      r :: h :: t

/-- Stable sort by the deny-before-allow comparator. -/
def sortDenyFirst : List PolicyRule → List PolicyRule
  | [] => []
  | h :: t => insertDenyFirst h (sortDenyFirst t)

/-- The rule loop of `evaluateABAC` (policy.service.ts lines 416-434):
the first rule of the sorted candidate list decides; no candidate means
no opinion. -/
def abacDecide : List PolicyRule → PolicyResult
  | [] =>
    { allowed := false, denied := false
      reason := "No ABAC rules matched", matchedRuleId := none }
  | rule :: _ =>
    match rule.effect with
    | Effect.deny =>
      { allowed := false, denied := true
        reason := "Denied by rule " ++ rule.id, matchedRuleId := some rule.id }
    | Effect.allow =>
      { allowed := true, denied := false
        reason := "Allowed by rule " ++ rule.id, matchedRuleId := some rule.id }

/-- ABAC evaluator (`evaluateABAC`, policy.service.ts lines 353-435). -/
def evaluateABAC (subject : PolicySubject) (action resource : String)
    (context : PolicyContext) (policyDoc : PolicyDocument) (now : Int) : PolicyResult :=
  let matchingRules :=
    policyDoc.rules.filter (fun rule => ruleMatches rule subject action resource context now)
  abacDecide (sortDenyFirst matchingRules)

/-- Association-list deletion of every binding of a key (models
`redis.del`). -/
def adel {α : Type} : List (String × α) → String → List (String × α)
  | [], _ => []
  | (k, v) :: t, key => if k = key then adel t key else (k, v) :: adel t key

/-- Association-list update: bind `key` to `v`, shadowing older bindings
(models `redis.set` and the Prisma row update). -/
def aset {α : Type} (l : List (String × α)) (key : String) (v : α) :
    List (String × α) :=
  (key, v) :: l

/-- A tenant's `configuration` JSON blob, restricted to the field the
policy service reads and writes (`configuration.policyEngine`). -/
structure TenantConfig where
  policyEngine : Option PolicyDocument
deriving DecidableEq, Repr

/-- One record written to the audit sink via `auditLog.logAction`. -/
structure AuditEntry where
  actor : Option String
  action : String
  resource : String
  reason : Option String
  matchedRuleId : Option String
deriving DecidableEq, Repr

/-- The engine's external state: the two Redis caches, the Prisma tenant
table (`tenantId` to `configuration`, with `some none` for a tenant whose
configuration column is null), the current time, and a flag modelling
cache I/O failure.

Modelled from the spec: the `RedisService` wrapper is not among the
provided sources; per the spec (sections 4.4 and 7, `CacheUnavailable`)
cache I/O errors are swallowed and logged, so under `cacheFails` a cache
read yields nothing and a cache write is a no-op — the error never
propagates to the evaluation caller. -/
structure Env where
  evalCache : List (String × PolicyResult)
  docCache : List (String × PolicyDocument)
  tenants : List (String × Option TenantConfig)
  now : Int
  cacheFails : Bool
deriving Repr

/-- Evaluation-cache read (`redis.get` + `JSON.parse`), gated by the
failure flag. -/
def evalCacheGet (env : Env) (key : String) : Option PolicyResult :=
  if env.cacheFails then none else alookup env.evalCache key

/-- Document-cache read (`redis.get` + `JSON.parse`), gated by the
failure flag. -/
def docCacheGet (env : Env) (key : String) : Option PolicyDocument :=
  if env.cacheFails then none else alookup env.docCache key

/-- `getPolicyDocument` (policy.service.ts lines 52-85): cache-first
read-through with fallback to the hard-coded default on a missing tenant,
a null configuration or an unsupported version.  Returns the document and
the updated environment (the cache write on a successful load). -/
def getPolicyDocument (env : Env) (tenantId : String) : PolicyDocument × Env :=
  let cacheKey := "policy:doc:" ++ tenantId
  match docCacheGet env cacheKey with
  | some cached => (cached, env)
  | none =>
    match alookup env.tenants tenantId with
    | none => (DEFAULT_POLICY, env)
    | some none => (DEFAULT_POLICY, env)
    | some (some configuration) =>
      let policyDoc := configuration.policyEngine.getD DEFAULT_POLICY
      if policyDoc.version ≠ 1 then (DEFAULT_POLICY, env)
      else
        (policyDoc,
         if env.cacheFails then env
         else { env with docCache := aset env.docCache cacheKey policyDoc })

/-- `invalidatePolicyCache` (policy.service.ts lines 90-94): delete the
cached document. -/
def invalidatePolicyCache (env : Env) (tenantId : String) : Env :=
  { env with docCache := adel env.docCache ("policy:doc:" ++ tenantId) }

/-- `updatePolicyDocument` (policy.service.ts lines 101-136): replace the
tenant configuration's policy section, invalidate the document cache,
write an administrative audit record; throw `Tenant not found` when the
tenant row does not exist (before any write). -/
def updatePolicyDocument (env : Env) (tenantId : String)
    (policy : PolicyDocument) (actorId : Int) :
    Except String (Env × List AuditEntry) :=
  match alookup env.tenants tenantId with
  | none => Except.error "Tenant not found"
  | some _ =>
    let newConfiguration : TenantConfig := { policyEngine := some policy }
    let env1 := { env with tenants := aset env.tenants tenantId (some newConfiguration) }
    let env2 := invalidatePolicyCache env1 tenantId
    let entry : AuditEntry :=
      { actor := some (toString actorId), action := "owner.policy.update"
        resource := "Policy", reason := none, matchedRuleId := none }
    Except.ok (env2, [entry])

/-- The `subject` argument of `evaluate`: `PolicySubject | PolicyRole`
(a bare role-name string or a tagged subject). -/
inductive SubjectArg where
  | ofRole (role : String)
  | ofSubject (s : PolicySubject)
deriving DecidableEq, Repr

/-- Subject normalization at the top of `evaluate`
(policy.service.ts lines 154-157). -/
def normalizeSubject : SubjectArg → PolicySubject
  | SubjectArg.ofRole role => { type := "role", id := role }
  | SubjectArg.ofSubject s => s

/-- `getEvalCacheKey` (policy.service.ts lines 441-451): the cache key is
built from tenant, subject type and id, action, resource, and the
workspace id when truthy (else the literal `global`). -/
def getEvalCacheKey (subject : PolicySubject) (action resource : String)
    (context : PolicyContext) : String :=
  let subjectStr := subject.type ++ ":" ++ subject.id
  let scopeStr :=
    match context.workspaceId with
    | some w => if w = "" then "global" else w
    | none => "global"
  "policy:eval:" ++ context.tenantId ++ ":" ++ subjectStr ++ ":" ++ action
    ++ ":" ++ resource ++ ":" ++ scopeStr

/-- `cacheEvalResult` (policy.service.ts lines 453-455), a no-op under
cache failure. -/
def cacheEvalResult (env : Env) (key : String) (result : PolicyResult) : Env :=
  if env.cacheFails then env
  else { env with evalCache := aset env.evalCache key result }

/-- The audit record written by `logPolicyDeny`
(policy.service.ts lines 457-478). -/
def denyAuditEntry (subject : PolicySubject) (reason : String)
    (matchedRuleId : Option String) : AuditEntry :=
  { actor := if subject.type = "user" then some subject.id else none
    action := "policy.deny"
    resource := "Policy:" ++ subject.id
    reason := some reason
    matchedRuleId := matchedRuleId }

/-- What one `evaluate` call produces: the returned result, the updated
environment, the audit records written during the call, and whether the
ABAC evaluator was invoked on this control path. -/
structure EvalOutcome where
  result : PolicyResult
  env : Env
  audits : List AuditEntry
  abacConsulted : Bool
deriving Repr

/-- The orchestrator `evaluate` (policy.service.ts lines 147-278),
translated branch by branch: evaluation-cache hit returns the cached
result verbatim; otherwise load the document, run RBAC (deny, then
allow), then ABAC (deny, then allow), then default-deny; every denial is
cached and audited, every allow is cached without audit. -/
def evaluate (subjectArg : SubjectArg) (action resource : String)
    (context : PolicyContext) (env : Env) : EvalOutcome :=
  let normalizedSubject := normalizeSubject subjectArg
  let evalCacheKey := getEvalCacheKey normalizedSubject action resource context
  match evalCacheGet env evalCacheKey with
  | some cachedResult =>
    { result := cachedResult, env := env, audits := [], abacConsulted := false }
  | none =>
    let loaded := getPolicyDocument env context.tenantId
    let policyDoc := loaded.1
    let env1 := loaded.2
    let rbacResult := evaluateRBAC normalizedSubject action resource context policyDoc
    if rbacResult.denied then
      let result : PolicyResult :=
        { allowed := false, denied := true
          reason := rbacResult.reason, matchedRuleId := none }
      { result := result
        env := cacheEvalResult env1 evalCacheKey result
        audits := [denyAuditEntry normalizedSubject result.reason none]
        abacConsulted := false }
    else if rbacResult.allowed then
      let result : PolicyResult :=
        { allowed := true, denied := false
          reason := rbacResult.reason, matchedRuleId := none }
      { result := result
        env := cacheEvalResult env1 evalCacheKey result
        audits := []
        abacConsulted := false }
    else
      let abacResult := evaluateABAC normalizedSubject action resource context policyDoc env.now
      if abacResult.denied then
        let result : PolicyResult :=
          { allowed := false, denied := true
            reason := abacResult.reason, matchedRuleId := abacResult.matchedRuleId }
        { result := result
          env := cacheEvalResult env1 evalCacheKey result
          audits := [denyAuditEntry normalizedSubject result.reason result.matchedRuleId]
          abacConsulted := true }
      else if abacResult.allowed then
        let result : PolicyResult :=
          { allowed := true, denied := false
            reason := abacResult.reason, matchedRuleId := abacResult.matchedRuleId }
        { result := result
          env := cacheEvalResult env1 evalCacheKey result
          audits := []
          abacConsulted := true }
      else
        let result : PolicyResult :=
          { allowed := false, denied := true
            reason := "Denied by default (no allow/deny rule matched)"
            matchedRuleId := none }
        { result := result
          env := cacheEvalResult env1 evalCacheKey result
          audits := [denyAuditEntry normalizedSubject result.reason none]
          abacConsulted := true }

/-! Concrete fixtures used to instantiate the theorems on executable
inputs. -/

/-- A user-typed subject (user 42). -/
def exUser : PolicySubject := { type := "user", id := "42" }

/-- A request context without a workspace. -/
def exCtx : PolicyContext :=
  { tenantId := "t1", workspaceId := none, userId := some "42"
    requestId := "req-1", ip := "10.0.0.1", ua := "test-agent", deviceId := "dev-1" }

/-- A request context inside workspace `w1`. -/
def exCtxWs : PolicyContext := { exCtx with workspaceId := some "w1" }

/-- An ABAC rule allowing user 42 to delete articles. -/
def exRuleAllow : PolicyRule :=
  { id := "rule-allow", effect := Effect.allow, subject := exUser
    action := "delete", resource := "Article", conditions := none }

/-- An ABAC rule denying user 42 the deletion of articles. -/
def exRuleDeny : PolicyRule :=
  { id := "rule-deny", effect := Effect.deny, subject := exUser
    action := "delete", resource := "Article", conditions := none }

/-- A document whose rule list places the allow rule before the deny
rule. -/
def exDocRules : PolicyDocument :=
  { version := 1, roles := [], rules := [exRuleAllow, exRuleDeny]
    denyByDefault := true }

/-- A document granting `VIEWER` read access to articles with scope
`all`. -/
def exDocViewer : PolicyDocument :=
  { version := 1
    roles := [("VIEWER",
      { permissions := [{ resource := "Article", actions := ["read"]
                          effect := Effect.allow, scope := "all" }] })]
    rules := []
    denyByDefault := true }

/-- A document whose `EDITOR` role carries an explicit deny on reading
articles, side by side with an ABAC rule that would allow the very same
request — the fixture for RBAC-deny short-circuiting. -/
def exDocEditorDeny : PolicyDocument :=
  { version := 1
    roles := [("EDITOR",
      { permissions := [{ resource := "Article", actions := ["read"]
                          effect := Effect.deny, scope := "all" }] })]
    rules := [{ id := "rule-editor-allow", effect := Effect.allow
                subject := { type := "role", id := "EDITOR" }
                action := "read", resource := "Article", conditions := none }]
    denyByDefault := true }

/-- A well-formed but empty document (no roles, no rules). -/
def exDocEmpty : PolicyDocument :=
  { version := 1, roles := [], rules := [], denyByDefault := true }

/-- A document with an unsupported version. -/
def exDocV2 : PolicyDocument :=
  { version := 2, roles := [], rules := [], denyByDefault := true }

/-- An environment whose single tenant `t1` stores the given document. -/
def mkEnv (doc : PolicyDocument) : Env :=
  { evalCache := [], docCache := []
    tenants := [("t1", some { policyEngine := some doc })]
    now := 100, cacheFails := false }

/-- A denied result as it would have been cached by an earlier call. -/
def exCachedDeny : PolicyResult :=
  { allowed := false, denied := true, reason := "Denied by rule rule-deny"
    matchedRuleId := some "rule-deny" }

/-- An environment holding a cached denial for user 42's
delete-Article request in tenant `t1`. -/
def exEnvCachedDeny : Env :=
  { mkEnv exDocRules with
      evalCache := [(getEvalCacheKey exUser "delete" "Article" exCtx, exCachedDeny)] }

/-- An environment whose tenant stores a document with an unsupported
version. -/
def exEnvV2 : Env := mkEnv exDocV2

/-- An environment in which every cache I/O operation fails. -/
def exEnvFails : Env := { mkEnv exDocRules with cacheFails := true }

/-- A context that differs from `exCtx` only in the fields outside the
cache-key tuple: another user id, request id and IP. -/
def exCtxOtherUser : PolicyContext :=
  { exCtx with userId := some "1337", requestId := "req-2", ip := "10.9.9.9" }

/-! Helper lemmas. -/

theorem alookup_aset_self {α : Type} (l : List (String × α)) (key : String) (v : α) :
    alookup (aset l key v) key = some v := by
  simp [aset, alookup]

theorem alookup_adel_self {α : Type} (l : List (String × α)) (key : String) :
    alookup (adel l key) key = none := by
  induction l with
  | nil => rfl
  | cons h t ih =>
    obtain ⟨k, v⟩ := h
    by_cases hk : k = key
    · simp [adel, hk, ih]
    · simp [adel, alookup, hk, ih]

theorem insertDenyFirst_of_deny (r : PolicyRule) (h : r.effect = Effect.deny)
    (l : List PolicyRule) : insertDenyFirst r l = r :: l := by
  cases l with
  | nil => rfl
  | cons a t => simp [insertDenyFirst, h]

theorem insertDenyFirst_of_allow (r : PolicyRule) (h : r.effect = Effect.allow) :
    ∀ fd fa : List PolicyRule, (∀ x ∈ fd, x.effect = Effect.deny) →
      (∀ x ∈ fa, x.effect = Effect.allow) →
      insertDenyFirst r (fd ++ fa) = fd ++ r :: fa := by
  intro fd
  induction fd with
  | nil =>
    intro fa _ hfa
    cases fa with
    | nil => rfl
    | cons a t =>
      have ha : a.effect = Effect.allow := hfa a (by simp)
      simp [insertDenyFirst, h, ha]
  | cons d fdt ih =>
    intro fa hfd hfa
    have hd : d.effect = Effect.deny := hfd d (by simp)
    have htail : ∀ x ∈ fdt, x.effect = Effect.deny := by
      intro x hx; exact hfd x (by simp [hx])
    simp [insertDenyFirst, h, hd, ih fa htail hfa]

/-- The stable deny-before-allow sort is exactly the two-pass partition:
matching deny rules in document order, then matching allow rules in
document order. -/
theorem sortDenyFirst_partition (l : List PolicyRule) :
    sortDenyFirst l =
      l.filter (fun r => decide (r.effect = Effect.deny))
        ++ l.filter (fun r => decide (r.effect = Effect.allow)) := by
  induction l with
  | nil => rfl
  | cons a t ih =>
    have hfd : ∀ x ∈ t.filter (fun r => decide (r.effect = Effect.deny)),
        x.effect = Effect.deny := by
      intro x hx
      have := List.of_mem_filter hx
      simpa using this
    have hfa : ∀ x ∈ t.filter (fun r => decide (r.effect = Effect.allow)),
        x.effect = Effect.allow := by
      intro x hx
      have := List.of_mem_filter hx
      simpa using this
    cases ha : a.effect with
    | deny =>
      simp only [sortDenyFirst, ih, insertDenyFirst_of_deny a ha]
      simp [List.filter, ha]
    | allow =>
      simp only [sortDenyFirst, ih,
        insertDenyFirst_of_allow a ha _ _ hfd hfa]
      simp [List.filter, ha]

/-- C3 counterexample: on a request matched by no ABAC rule, the
evaluator does return no-opinion, but its reason is the source string
`No ABAC rules matched`, not the claimed lowercase `no ABAC rules
matched`, so the claim as stated is false at this input. -/
theorem c3_reason_case_counterexample :
    (evaluateABAC exUser "read" "Article" exCtx exDocEmpty 100).allowed = false
  ∧ (evaluateABAC exUser "read" "Article" exCtx exDocEmpty 100).denied = false
  ∧ (evaluateABAC exUser "read" "Article" exCtx exDocEmpty 100).reason
      = "No ABAC rules matched"
  ∧ (evaluateABAC exUser "read" "Article" exCtx exDocEmpty 100).reason
      ≠ "no ABAC rules matched" := by
  refine ⟨rfl, rfl, rfl, ?_⟩
  decide

/-- C3 (amended): among matching ABAC rules, deny is ordered before allow
with document order preserved within the same effect; the first rule of
this ordering determines the result, whose effect and matchedRuleId are
that rule's; with one matching deny rule and one matching allow rule the
decision is deny with the deny rule's id regardless of document order;
and with no matching rule the evaluator returns no-opinion with reason
`No ABAC rules matched` (the source string; the claim's lowercase quote
is corrected). -/
theorem c3_abac_deny_precedence
    (subject : PolicySubject) (action resource : String) (context : PolicyContext)
    (policyDoc : PolicyDocument) (now : Int) (m : List PolicyRule)
    (hm : m = policyDoc.rules.filter
        (fun rule => ruleMatches rule subject action resource context now)) :
    (sortDenyFirst m =
        m.filter (fun r => decide (r.effect = Effect.deny))
          ++ m.filter (fun r => decide (r.effect = Effect.allow)))
  ∧ (∀ r rest, sortDenyFirst m = r :: rest →
      (evaluateABAC subject action resource context policyDoc now).matchedRuleId = some r.id
      ∧ ((evaluateABAC subject action resource context policyDoc now).denied = true
          ↔ r.effect = Effect.deny)
      ∧ ((evaluateABAC subject action resource context policyDoc now).allowed = true
          ↔ r.effect = Effect.allow))
  ∧ (∀ d a, d.effect = Effect.deny → a.effect = Effect.allow →
      (m = [d, a] ∨ m = [a, d]) →
      evaluateABAC subject action resource context policyDoc now =
        { allowed := false, denied := true
          reason := "Denied by rule " ++ d.id, matchedRuleId := some d.id })
  ∧ (m = [] →
      evaluateABAC subject action resource context policyDoc now =
        { allowed := false, denied := false
          reason := "No ABAC rules matched", matchedRuleId := none }) := by
  have hev : evaluateABAC subject action resource context policyDoc now
      = abacDecide (sortDenyFirst m) := by
    rw [hm]; rfl
  refine ⟨sortDenyFirst_partition m, ?_, ?_, ?_⟩
  · intro r rest hsr
    rw [hev, hsr]
    cases hr : r.effect with
    | deny => simp [abacDecide, hr]
    | allow => simp [abacDecide, hr]
  · intro d a hd ha hcase
    rcases hcase with hma | hma <;>
      rw [hev, hma] <;>
      simp [sortDenyFirst, insertDenyFirst, hd, ha, abacDecide]
  · intro hm0
    rw [hev, hm0]
    rfl

/-- C3 witness: user 42's delete-Article request matches both
`exRuleAllow` (first in the document) and `exRuleDeny`; the decision is
deny with the deny rule's id. -/
theorem c3_abac_deny_precedence_witness :
    evaluateABAC exUser "delete" "Article" exCtx exDocRules 100 =
      { allowed := false, denied := true
        reason := "Denied by rule rule-deny", matchedRuleId := some "rule-deny" } :=
  (c3_abac_deny_precedence exUser "delete" "Article" exCtx exDocRules 100
      [exRuleAllow, exRuleDeny] (by decide)).2.2.1
    exRuleDeny exRuleAllow (by decide) (by decide) (Or.inr (by decide))

/-- C9: for a role subject whose matching permission has effect allow,
the RBAC evaluator decides by scope: `own` and `workspace` allow exactly
when the context carries a (truthy) workspace id and hard-deny otherwise,
`all` always allows, and an unrecognized scope yields no opinion. -/
theorem c9_rbac_scope_cases
    (subject : PolicySubject) (action resource : String) (context : PolicyContext)
    (policyDoc : PolicyDocument) (rolePermissions : RolePermissionSet)
    (permission : Permission)
    (hty : subject.type = "role")
    (hrole : alookup policyDoc.roles subject.id = some rolePermissions)
    (hperm : rolePermissions.permissions.find? (fun p => p.resource = resource)
        = some permission)
    (hact : permission.actions.contains action = true)
    (heff : permission.effect = Effect.allow) :
    ((permission.scope = "own" ∨ permission.scope = "workspace") →
        strTruthy context.workspaceId = true →
        (evaluateRBAC subject action resource context policyDoc).allowed = true
        ∧ (evaluateRBAC subject action resource context policyDoc).denied = false)
  ∧ ((permission.scope = "own" ∨ permission.scope = "workspace") →
        strTruthy context.workspaceId = false →
        (evaluateRBAC subject action resource context policyDoc).denied = true
        ∧ (evaluateRBAC subject action resource context policyDoc).allowed = false)
  ∧ (permission.scope = "all" →
        (evaluateRBAC subject action resource context policyDoc).allowed = true
        ∧ (evaluateRBAC subject action resource context policyDoc).denied = false)
  ∧ (permission.scope ≠ "own" → permission.scope ≠ "workspace" →
        permission.scope ≠ "all" →
        (evaluateRBAC subject action resource context policyDoc).allowed = false
        ∧ (evaluateRBAC subject action resource context policyDoc).denied = false) := by
  have hmem : action ∈ permission.actions := by
    simpa using hact
  refine ⟨?_, ?_, ?_, ?_⟩
  · rintro (hs | hs) hws <;>
      simp [evaluateRBAC, hty, hrole, hperm, hmem, heff, hs, hws]
  · rintro (hs | hs) hws <;>
      simp [evaluateRBAC, hty, hrole, hperm, hmem, heff, hs, hws]
  · intro hs
    simp [evaluateRBAC, hty, hrole, hperm, hmem, heff, hs]
  · intro h1 h2 h3
    simp [evaluateRBAC, hty, hrole, hperm, hmem, heff, h1, h2, h3]

/-- C9 witness: `VIEWER` reading an article under a scope-`all`
permission is allowed. -/
theorem c9_rbac_scope_cases_witness :
    (evaluateRBAC { type := "role", id := "VIEWER" } "read" "Article" exCtx
        exDocViewer).allowed = true
  ∧ (evaluateRBAC { type := "role", id := "VIEWER" } "read" "Article" exCtx
        exDocViewer).denied = false :=
  (c9_rbac_scope_cases { type := "role", id := "VIEWER" } "read" "Article" exCtx
      exDocViewer
      { permissions := [{ resource := "Article", actions := ["read"]
                          effect := Effect.allow, scope := "all" }] }
      { resource := "Article", actions := ["read"]
        effect := Effect.allow, scope := "all" }
      rfl (by decide) (by decide) (by decide) rfl).2.2.1 rfl

/-- C6: on a document-cache miss, `getPolicyDocument` returns the
hard-coded default document whenever the tenant is absent, its
configuration is null, or the stored document's version is not the
supported version 1; it never fails its caller (the operation is total
by construction). -/
theorem c6_get_policy_document_defaults
    (env : Env) (tenantId : String)
    (hmiss : docCacheGet env ("policy:doc:" ++ tenantId) = none)
    (hbad : alookup env.tenants tenantId = none
          ∨ alookup env.tenants tenantId = some none
          ∨ ∃ configuration doc,
              alookup env.tenants tenantId = some (some configuration)
              ∧ configuration.policyEngine = some doc ∧ doc.version ≠ 1) :
    (getPolicyDocument env tenantId).1 = DEFAULT_POLICY := by
  rcases hbad with h | h | ⟨configuration, doc, h1, h2, h3⟩
  · simp [getPolicyDocument, hmiss, h]
  · simp [getPolicyDocument, hmiss, h]
  · simp [getPolicyDocument, hmiss, h1, h2, h3]

/-- C6 witness: a stored version-2 document is replaced by the default. -/
theorem c6_get_policy_document_defaults_witness :
    (getPolicyDocument exEnvV2 "t1").1 = DEFAULT_POLICY :=
  c6_get_policy_document_defaults exEnvV2 "t1" rfl
    (Or.inr (Or.inr ⟨{ policyEngine := some exDocV2 }, exDocV2, rfl, rfl, by decide⟩))

/-- C7: `updatePolicyDocument` fails with the tenant-not-found error when
the tenant row is absent (returning no new state and no audit record);
when the tenant exists it replaces the configuration's policy section,
leaves no cached document behind, leaves the evaluation cache untouched,
and writes exactly one administrative audit record, which is not a deny
audit. -/
theorem c7_update_policy_document
    (env : Env) (tenantId : String) (policy : PolicyDocument) (actorId : Int) :
    (alookup env.tenants tenantId = none →
        updatePolicyDocument env tenantId policy actorId
          = Except.error "Tenant not found")
  ∧ (∀ cfg, alookup env.tenants tenantId = some cfg →
      ∃ env2 audits,
        updatePolicyDocument env tenantId policy actorId = Except.ok (env2, audits)
        ∧ alookup env2.tenants tenantId = some (some { policyEngine := some policy })
        ∧ alookup env2.docCache ("policy:doc:" ++ tenantId) = none
        ∧ env2.evalCache = env.evalCache
        ∧ audits = [{ actor := some (toString actorId)
                      action := "owner.policy.update", resource := "Policy"
                      reason := none, matchedRuleId := none }]
        ∧ audits.filter (fun e => decide (e.action = "policy.deny")) = []) := by
  constructor
  · intro h
    simp [updatePolicyDocument, h]
  · intro cfg h
    refine ⟨invalidatePolicyCache
        { env with tenants := aset env.tenants tenantId (some { policyEngine := some policy }) }
        tenantId,
      [{ actor := some (toString actorId)
         action := "owner.policy.update", resource := "Policy"
         reason := none, matchedRuleId := none }],
      ?_, ?_, ?_, rfl, rfl, by simp⟩
    · simp [updatePolicyDocument, h]
    · simp [invalidatePolicyCache, alookup_aset_self]
    · simp [invalidatePolicyCache, alookup_adel_self]

/-- C7 witness: updating a tenant that does not exist fails with the
tenant-not-found error. -/
theorem c7_update_policy_document_witness :
    updatePolicyDocument (mkEnv exDocViewer) "t2" exDocEmpty 7
      = Except.error "Tenant not found" :=
  (c7_update_policy_document (mkEnv exDocViewer) "t2" exDocEmpty 7).1 rfl

theorem getPolicyDocument_evalCache (env : Env) (t : String) :
    (getPolicyDocument env t).2.evalCache = env.evalCache := by
  cases hdc : docCacheGet env ("policy:doc:" ++ t) with
  | some d => simp [getPolicyDocument, hdc]
  | none =>
    cases ht : alookup env.tenants t with
    | none => simp [getPolicyDocument, hdc, ht]
    | some cfg =>
      cases cfg with
      | none => simp [getPolicyDocument, hdc, ht]
      | some c =>
        by_cases hv : (c.policyEngine.getD DEFAULT_POLICY).version = 1
        · by_cases hf : env.cacheFails = true <;>
            simp [getPolicyDocument, hdc, ht, hv, hf, aset]
        · simp [getPolicyDocument, hdc, ht, hv]

theorem getPolicyDocument_snd_of_cacheFails (env : Env) (t : String)
    (hf : env.cacheFails = true) : (getPolicyDocument env t).2 = env := by
  have hdc : docCacheGet env ("policy:doc:" ++ t) = none := by
    simp [docCacheGet, hf]
  cases ht : alookup env.tenants t with
  | none => simp [getPolicyDocument, hdc, ht]
  | some cfg =>
    cases cfg with
    | none => simp [getPolicyDocument, hdc, ht]
    | some c =>
      by_cases hv : (c.policyEngine.getD DEFAULT_POLICY).version = 1 <;>
        simp [getPolicyDocument, hdc, ht, hv, hf]

theorem getPolicyDocument_fst_congr (env env2 : Env) (t : String)
    (hf : env.cacheFails = true) (hf2 : env2.cacheFails = true)
    (ht : env2.tenants = env.tenants) :
    (getPolicyDocument env2 t).1 = (getPolicyDocument env t).1 := by
  have hdc : docCacheGet env ("policy:doc:" ++ t) = none := by
    simp [docCacheGet, hf]
  have hdc2 : docCacheGet env2 ("policy:doc:" ++ t) = none := by
    simp [docCacheGet, hf2]
  cases htl : alookup env.tenants t with
  | none => simp [getPolicyDocument, hdc, hdc2, ht, htl]
  | some cfg =>
    cases cfg with
    | none => simp [getPolicyDocument, hdc, hdc2, ht, htl]
    | some c =>
      by_cases hv : (c.policyEngine.getD DEFAULT_POLICY).version = 1 <;>
        simp [getPolicyDocument, hdc, hdc2, ht, htl, hv, hf, hf2]

/-- C1: when the evaluation cache misses and the RBAC evaluator denies,
the public evaluate operation returns a denied (non-allowed) result with
the RBAC reason, and the ABAC evaluator is not consulted on this path. -/
theorem c1_rbac_deny_short_circuits
    (subjectArg : SubjectArg) (action resource : String) (context : PolicyContext)
    (env : Env)
    (hmiss : evalCacheGet env
        (getEvalCacheKey (normalizeSubject subjectArg) action resource context) = none)
    (hdeny : (evaluateRBAC (normalizeSubject subjectArg) action resource context
        (getPolicyDocument env context.tenantId).1).denied = true) :
    (evaluate subjectArg action resource context env).result.denied = true
  ∧ (evaluate subjectArg action resource context env).result.allowed = false
  ∧ (evaluate subjectArg action resource context env).abacConsulted = false
  ∧ (evaluate subjectArg action resource context env).result.reason
      = (evaluateRBAC (normalizeSubject subjectArg) action resource context
          (getPolicyDocument env context.tenantId).1).reason := by
  simp [evaluate, hmiss, hdeny]

/-- C1 witness: role `EDITOR` carries an RBAC deny on reading articles
while an ABAC rule would allow the same request; the outcome is deny and
ABAC is not consulted. -/
theorem c1_rbac_deny_short_circuits_witness :
    (evaluate (SubjectArg.ofRole "EDITOR") "read" "Article" exCtx
        (mkEnv exDocEditorDeny)).result.denied = true
  ∧ (evaluate (SubjectArg.ofRole "EDITOR") "read" "Article" exCtx
        (mkEnv exDocEditorDeny)).result.allowed = false
  ∧ (evaluate (SubjectArg.ofRole "EDITOR") "read" "Article" exCtx
        (mkEnv exDocEditorDeny)).abacConsulted = false :=
  have h := c1_rbac_deny_short_circuits (SubjectArg.ofRole "EDITOR") "read" "Article"
    exCtx (mkEnv exDocEditorDeny) rfl (by decide)
  ⟨h.1, h.2.1, h.2.2.1⟩

/-- C2 counterexample: on tenant `t1` with an empty policy document,
neither RBAC nor ABAC has an opinion about `VIEWER` reading an article;
the call is denied with a null matchedRuleId, but the reason is the
source string `Denied by default (no allow/deny rule matched)`, not the
claimed literal `denied by default`, so the claim as stated is false at
this input. -/
theorem c2_default_reason_counterexample :
    (evaluateRBAC { type := "role", id := "VIEWER" } "read" "Article" exCtx
        (getPolicyDocument (mkEnv exDocEmpty) "t1").1).denied = false
  ∧ (evaluateRBAC { type := "role", id := "VIEWER" } "read" "Article" exCtx
        (getPolicyDocument (mkEnv exDocEmpty) "t1").1).allowed = false
  ∧ (evaluateABAC { type := "role", id := "VIEWER" } "read" "Article" exCtx
        (getPolicyDocument (mkEnv exDocEmpty) "t1").1 100).denied = false
  ∧ (evaluateABAC { type := "role", id := "VIEWER" } "read" "Article" exCtx
        (getPolicyDocument (mkEnv exDocEmpty) "t1").1 100).allowed = false
  ∧ (evaluate (SubjectArg.ofRole "VIEWER") "read" "Article" exCtx
        (mkEnv exDocEmpty)).result.denied = true
  ∧ (evaluate (SubjectArg.ofRole "VIEWER") "read" "Article" exCtx
        (mkEnv exDocEmpty)).result.matchedRuleId = none
  ∧ (evaluate (SubjectArg.ofRole "VIEWER") "read" "Article" exCtx
        (mkEnv exDocEmpty)).result.reason ≠ "denied by default" := by
  refine ⟨rfl, rfl, rfl, rfl, rfl, rfl, ?_⟩
  decide

/-- C2 (amended): when the evaluation cache misses and neither RBAC nor
ABAC reaches an explicit allow or deny, evaluate returns a denied result
with a null matchedRuleId and the source's default-deny reason
`Denied by default (no allow/deny rule matched)` (the claim's quoted
reason `denied by default` is corrected to the source string). -/
theorem c2_denied_by_default
    (subjectArg : SubjectArg) (action resource : String) (context : PolicyContext)
    (env : Env)
    (hmiss : evalCacheGet env
        (getEvalCacheKey (normalizeSubject subjectArg) action resource context) = none)
    (hrd : (evaluateRBAC (normalizeSubject subjectArg) action resource context
        (getPolicyDocument env context.tenantId).1).denied = false)
    (hra : (evaluateRBAC (normalizeSubject subjectArg) action resource context
        (getPolicyDocument env context.tenantId).1).allowed = false)
    (had : (evaluateABAC (normalizeSubject subjectArg) action resource context
        (getPolicyDocument env context.tenantId).1 env.now).denied = false)
    (haa : (evaluateABAC (normalizeSubject subjectArg) action resource context
        (getPolicyDocument env context.tenantId).1 env.now).allowed = false) :
    (evaluate subjectArg action resource context env).result =
      { allowed := false, denied := true
        reason := "Denied by default (no allow/deny rule matched)"
        matchedRuleId := none } := by
  simp [evaluate, hmiss, hrd, hra, had, haa]

/-- C2 witness: the default-deny result on an empty document. -/
theorem c2_denied_by_default_witness :
    (evaluate (SubjectArg.ofRole "VIEWER") "read" "Article" exCtx
        (mkEnv exDocEmpty)).result =
      { allowed := false, denied := true
        reason := "Denied by default (no allow/deny rule matched)"
        matchedRuleId := none } :=
  c2_denied_by_default (SubjectArg.ofRole "VIEWER") "read" "Article" exCtx
    (mkEnv exDocEmpty) rfl rfl rfl rfl rfl

theorem cacheEvalResult_wf (env : Env) (key : String) (result : PolicyResult)
    (hres : result.allowed = !result.denied)
    (hwf : ∀ k r, alookup env.evalCache k = some r → r.allowed = !r.denied) :
    ∀ k r, alookup (cacheEvalResult env key result).evalCache k = some r →
      r.allowed = !r.denied := by
  intro k r hk
  unfold cacheEvalResult at hk
  by_cases hf : env.cacheFails = true
  · rw [if_pos hf] at hk
    exact hwf k r hk
  · rw [if_neg hf] at hk
    simp only [aset] at hk
    unfold alookup at hk
    by_cases hkey : key = k
    · rw [if_pos hkey] at hk
      injection hk with h
      rw [← h]
      exact hres
    · rw [if_neg hkey] at hk
      exact hwf k r hk

/-- C4: under the invariant that every cached evaluation result is
terminal (exactly one of allowed/denied set), the result returned by
evaluate is terminal on every path — including the cache-hit path — and
the invariant is preserved by the cache write evaluate performs, so no
internal no-opinion state ever reaches the caller. -/
theorem c4_result_terminal
    (subjectArg : SubjectArg) (action resource : String) (context : PolicyContext)
    (env : Env)
    (hwf : ∀ k r, alookup env.evalCache k = some r → r.allowed = !r.denied) :
    ((evaluate subjectArg action resource context env).result.allowed
        = !(evaluate subjectArg action resource context env).result.denied)
  ∧ (∀ k r, alookup (evaluate subjectArg action resource context env).env.evalCache k
        = some r → r.allowed = !r.denied) := by
  have hwf1 : ∀ k r,
      alookup (getPolicyDocument env context.tenantId).2.evalCache k = some r →
        r.allowed = !r.denied := by
    rw [getPolicyDocument_evalCache]
    exact hwf
  cases hc : evalCacheGet env
      (getEvalCacheKey (normalizeSubject subjectArg) action resource context) with
  | some cached =>
    have hcc : cached.allowed = !cached.denied := by
      unfold evalCacheGet at hc
      by_cases hf : env.cacheFails = true
      · rw [if_pos hf] at hc
        exact absurd hc (by simp)
      · rw [if_neg hf] at hc
        exact hwf _ _ hc
    simp only [evaluate, hc]
    exact ⟨hcc, hwf⟩
  | none =>
    simp only [evaluate, hc]
    repeat' split
    all_goals exact ⟨rfl, cacheEvalResult_wf _ _ _ rfl hwf1⟩

/-- C4 witness: a terminal result on a concrete allowed request starting
from an empty (vacuously well-formed) cache. -/
theorem c4_result_terminal_witness :
    (evaluate (SubjectArg.ofRole "VIEWER") "read" "Article" exCtx
        (mkEnv exDocViewer)).result.allowed
      = !(evaluate (SubjectArg.ofRole "VIEWER") "read" "Article" exCtx
        (mkEnv exDocViewer)).result.denied :=
  (c4_result_terminal (SubjectArg.ofRole "VIEWER") "read" "Article" exCtx
    (mkEnv exDocViewer) (by intro k r hk; cases hk)).1

/-- C5 counterexample: a call that hits the evaluation cache with a
cached denial returns a denied result but performs no deny-audit write,
so the claim that every call returning a denied result performs exactly
one deny-audit write is false at this input. -/
theorem c5_cache_hit_no_audit_counterexample :
    (evaluate (SubjectArg.ofSubject exUser) "delete" "Article" exCtx
        exEnvCachedDeny).result.denied = true
  ∧ (evaluate (SubjectArg.ofSubject exUser) "delete" "Article" exCtx
        exEnvCachedDeny).audits = [] := by
  exact ⟨rfl, rfl⟩

/-- C5 (amended): every evaluate call that misses the evaluation cache
and returns a denied result performs exactly one deny-audit write, and
no call that returns an allowed result performs any deny-audit write
(the original claim is corrected to exclude the cache-hit path, which
returns a previously cached denial without writing a new audit
record). -/
theorem c5_deny_audit_exactly_once
    (subjectArg : SubjectArg) (action resource : String) (context : PolicyContext)
    (env : Env) :
    ((evaluate subjectArg action resource context env).result.allowed = true →
      ((evaluate subjectArg action resource context env).audits.filter
          (fun e => decide (e.action = "policy.deny"))).length = 0)
  ∧ (evalCacheGet env
        (getEvalCacheKey (normalizeSubject subjectArg) action resource context) = none →
      (evaluate subjectArg action resource context env).result.denied = true →
      ((evaluate subjectArg action resource context env).audits.filter
          (fun e => decide (e.action = "policy.deny"))).length = 1) := by
  cases hc : evalCacheGet env
      (getEvalCacheKey (normalizeSubject subjectArg) action resource context) with
  | some cached =>
    constructor
    · intro _
      simp [evaluate, hc]
    · intro hmiss
      cases hmiss
  | none =>
    simp only [evaluate, hc]
    repeat' split
    all_goals constructor
    all_goals intro h
    all_goals simp_all [denyAuditEntry]

/-- C5 witness: an uncached ABAC denial writes exactly one deny-audit
record. -/
theorem c5_deny_audit_exactly_once_witness :
    ((evaluate (SubjectArg.ofSubject exUser) "delete" "Article" exCtx
        (mkEnv exDocRules)).audits.filter
        (fun e => decide (e.action = "policy.deny"))).length = 1 :=
  (c5_deny_audit_exactly_once (SubjectArg.ofSubject exUser) "delete" "Article"
    exCtx (mkEnv exDocRules)).2 rfl (by decide)

/-- C8: when cache I/O fails, evaluate neither fails nor degrades: it
still returns a terminal (allow-or-deny) result, leaves the environment
untouched (no cache entry is written), and returns the same decision it
would compute with no cached data at all — evaluation proceeds
uncached. -/
theorem c8_cache_failure_nonfatal
    (subjectArg : SubjectArg) (action resource : String) (context : PolicyContext)
    (env : Env)
    (hf : env.cacheFails = true) :
    ((evaluate subjectArg action resource context env).result.allowed
        = !(evaluate subjectArg action resource context env).result.denied)
  ∧ (evaluate subjectArg action resource context env).env = env
  ∧ (evaluate subjectArg action resource context env).result
      = (evaluate subjectArg action resource context
          { env with evalCache := [], docCache := [] }).result := by
  have hf2 : ({ env with evalCache := [], docCache := [] } : Env).cacheFails = true := hf
  have hget : evalCacheGet env
      (getEvalCacheKey (normalizeSubject subjectArg) action resource context) = none := by
    simp [evalCacheGet, hf]
  have hget2 : evalCacheGet { env with evalCache := [], docCache := [] }
      (getEvalCacheKey (normalizeSubject subjectArg) action resource context) = none := by
    simp [evalCacheGet, hf]
  have hdoc : (getPolicyDocument { env with evalCache := [], docCache := [] }
      context.tenantId).1 = (getPolicyDocument env context.tenantId).1 :=
    getPolicyDocument_fst_congr env _ context.tenantId hf hf2 rfl
  have hsnd : (getPolicyDocument env context.tenantId).2 = env :=
    getPolicyDocument_snd_of_cacheFails env context.tenantId hf
  have hcache : ∀ key result, cacheEvalResult env key result = env := by
    intro key result
    simp [cacheEvalResult, hf]
  simp only [evaluate, hget, hget2, hdoc, hsnd, hcache]
  repeat' split
  all_goals simp_all

/-- C8 witness: with failing caches, a concrete ABAC denial is still
computed and returned, and the environment is unchanged. -/
theorem c8_cache_failure_nonfatal_witness :
    ((evaluate (SubjectArg.ofSubject exUser) "delete" "Article" exCtx
        exEnvFails).result.allowed
      = !(evaluate (SubjectArg.ofSubject exUser) "delete" "Article" exCtx
        exEnvFails).result.denied)
  ∧ (evaluate (SubjectArg.ofSubject exUser) "delete" "Article" exCtx
        exEnvFails).env = exEnvFails :=
  have h := c8_cache_failure_nonfatal (SubjectArg.ofSubject exUser) "delete"
    "Article" exCtx exEnvFails rfl
  ⟨h.1, h.2.1⟩

/-- C10: the evaluation-cache key does not depend on any context field
other than the tenant id and the workspace id (in particular not on the
user id the ABAC userIds condition consults), so a decision cached under
one context is returned verbatim by evaluate for any other context that
agrees on those two fields. -/
theorem c10_cache_key_ignores_user
    (subject : PolicySubject) (action resource : String)
    (c c2 : PolicyContext) (env : Env) (res : PolicyResult)
    (h1 : c2.tenantId = c.tenantId) (h2 : c2.workspaceId = c.workspaceId)
    (hcf : env.cacheFails = false)
    (hhit : alookup env.evalCache (getEvalCacheKey subject action resource c)
        = some res) :
    getEvalCacheKey subject action resource c2
      = getEvalCacheKey subject action resource c
  ∧ (evaluate (SubjectArg.ofSubject subject) action resource c2 env).result = res := by
  have hkey : getEvalCacheKey subject action resource c2
      = getEvalCacheKey subject action resource c := by
    simp [getEvalCacheKey, h1, h2]
  refine ⟨hkey, ?_⟩
  have hget : evalCacheGet env
      (getEvalCacheKey (normalizeSubject (SubjectArg.ofSubject subject))
        action resource c2) = some res := by
    simp only [normalizeSubject, evalCacheGet, hcf, hkey]
    simpa [hcf] using hhit
  simp [evaluate, hget]

/-- C10 witness: a denial cached for user 42's context is returned
verbatim for a context naming another user (different userId, requestId
and IP). -/
theorem c10_cache_key_ignores_user_witness :
    getEvalCacheKey exUser "delete" "Article" exCtxOtherUser
      = getEvalCacheKey exUser "delete" "Article" exCtx
  ∧ (evaluate (SubjectArg.ofSubject exUser) "delete" "Article" exCtxOtherUser
        exEnvCachedDeny).result = exCachedDeny :=
  c10_cache_key_ignores_user exUser "delete" "Article" exCtx exCtxOtherUser
    exEnvCachedDeny exCachedDeny rfl rfl rfl rfl

end Teknav.Policy
